import Mathlib

/-!
Shallow embedding of the Discord-Economy bot (src/main.py).

The implemented command handlers are `register`, `balance`, `work`, `daily`,
`weekly`, `monthly`, `deposit`, `withdraw` and `coinflip`.  Each handler is
translated to a pure function taking the account (and the time / random draws
that the Python code obtains from `time.time()`, `random.randint`,
`random.choice`) and returning the final account together with the result the
handler reports to the user.  Python floats (`time.time()` timestamps) are
modelled as rationals; Python's unbounded `int` as `Int`.
-/

/-- One user's record in the in-memory `user_data` dict (src/main.py line 21,
initialised at lines 89-96): cash, bank, and the four cooldown timestamps. -/
structure Account where
  cash : Int
  bank : Int
  last_work : ℚ
  last_daily : ℚ
  last_weekly : ℚ
  last_monthly : ℚ
deriving DecidableEq, Repr

/-- Constant `WORK_COOLDOWN_SECONDS = 60` (line 14). -/
def WORK_COOLDOWN_SECONDS : ℚ := 60
/-- Constant `DAILY_COOLDOWN_SECONDS = 86400` (line 15). -/
def DAILY_COOLDOWN_SECONDS : ℚ := 86400
/-- Constant `WEEKLY_COOLDOWN_SECONDS = 604800` (line 16). -/
def WEEKLY_COOLDOWN_SECONDS : ℚ := 604800
/-- Constant `MONTHLY_COOLDOWN_SECONDS = 2592000` (line 17). -/
def MONTHLY_COOLDOWN_SECONDS : ℚ := 2592000

/-- The distinct user-facing error outcomes of the implemented handlers.
`InvalidAmountOrInsufficientFunds` is the single combined message used by
`deposit_command` (line 540) and `withdraw_command` (line 558). -/
inductive EconError where
  | NotRegistered
  | AlreadyExists
  | CooldownActive (remainingSeconds : Int)
  | InvalidChoice
  | InvalidAmount
  | InsufficientFunds
  | InvalidAmountOrInsufficientFunds
deriving DecidableEq, Repr

/-- A handler invocation on one account: the account as the handler leaves it,
and the message it sends (success payload or error). -/
structure Reply (α : Type) where
  account : Account
  result : Except EconError α

/-- Python `int(q)` on a float: truncation toward zero (used at lines 135,
160, 185, 236 on the positive remaining time). -/
def pyInt (q : ℚ) : Int := if q < 0 then ⌈q⌉ else ⌊q⌋

/-- Python `str.lower()` (line 345), performed character by character. -/
def pyLower (s : String) : String := String.mk (s.data.map Char.toLower)

/-- The cooldown gate shared (inlined) by `work`, `daily`, `weekly` and
`monthly` (e.g. lines 134-137): blocked exactly when
`current_time < lastUsed + interval`, with the remaining seconds reported as
`int((lastUsed + interval) - current_time)`. -/
inductive CooldownResult where
  | Ready
  | Blocked (remainingSeconds : Int)
deriving DecidableEq, Repr

/-- The check the four timed handlers perform on entry (lines 134-137,
159-162, 184-187, 235-238). -/
def cooldownCheck (lastUsed interval now : ℚ) : CooldownResult :=
  if now < lastUsed + interval then
    .Blocked (pyInt (lastUsed + interval - now))
  else
    .Ready

/-- The profile created by `register_command` (lines 88-96):
`starter_cash = 500`, bank 0, all cooldown timestamps 0.0. -/
def starter_account : Account :=
  { cash := 500, bank := 0, last_work := 0, last_daily := 0,
    last_weekly := 0, last_monthly := 0 }

/-- Handler `balance_command` (lines 107-124): reports cash, bank and net worth,
mutating nothing. -/
def balance_command (data : Account) : Reply (Int × Int × Int) :=
  { account := data, result := .ok (data.cash, data.bank, data.cash + data.bank) }

/-- Handler `work_command` (lines 228-250): cooldown-gated; on success credits
`job_pay = random.randint(100, 600)` (passed here as `job_pay`) to cash and
stamps `last_work`. -/
def work_command (data : Account) (current_time : ℚ) (job_pay : Int) : Reply Int :=
  if current_time < data.last_work + WORK_COOLDOWN_SECONDS then
    { account := data,
      result := .error (.CooldownActive
        (pyInt (data.last_work + WORK_COOLDOWN_SECONDS - current_time))) }
  else
    { account := { data with cash := data.cash + job_pay, last_work := current_time },
      result := .ok job_pay }

/-- Handler `daily_command` (lines 127-149): cooldown-gated; on success credits
`daily_reward = random.randint(5000, 10000)` and stamps `last_daily`. -/
def daily_command (data : Account) (current_time : ℚ) (daily_reward : Int) : Reply Int :=
  if current_time < data.last_daily + DAILY_COOLDOWN_SECONDS then
    { account := data,
      result := .error (.CooldownActive
        (pyInt (data.last_daily + DAILY_COOLDOWN_SECONDS - current_time))) }
  else
    { account := { data with cash := data.cash + daily_reward, last_daily := current_time },
      result := .ok daily_reward }

/-- Handler `weekly_command` (lines 152-174): cooldown-gated; on success credits
`weekly_reward = random.randint(30000, 50000)` and stamps `last_weekly`. -/
def weekly_command (data : Account) (current_time : ℚ) (weekly_reward : Int) : Reply Int :=
  if current_time < data.last_weekly + WEEKLY_COOLDOWN_SECONDS then
    { account := data,
      result := .error (.CooldownActive
        (pyInt (data.last_weekly + WEEKLY_COOLDOWN_SECONDS - current_time))) }
  else
    { account := { data with cash := data.cash + weekly_reward, last_weekly := current_time },
      result := .ok weekly_reward }

/-- Handler `monthly_command` (lines 177-199): cooldown-gated; on success credits
`monthly_reward = random.randint(150000, 300000)` and stamps `last_monthly`. -/
def monthly_command (data : Account) (current_time : ℚ) (monthly_reward : Int) : Reply Int :=
  if current_time < data.last_monthly + MONTHLY_COOLDOWN_SECONDS then
    { account := data,
      result := .error (.CooldownActive
        (pyInt (data.last_monthly + MONTHLY_COOLDOWN_SECONDS - current_time))) }
  else
    { account := { data with cash := data.cash + monthly_reward, last_monthly := current_time },
      result := .ok monthly_reward }

/-- The success payload of `coinflip_command`: win flag and the new cash
balance shown in the embed field (line 377). -/
structure FlipOutcome where
  won : Bool
  newBalance : Int
deriving DecidableEq, Repr

/-- Handler `coinflip_command` (lines 336-378).  The handler lowercases `choice`, then
checks membership in `['heads', 'tails']` (line 346), then `amount <= 0`
(line 350), then `amount > data['cash']` (line 354); `coin_result` is the
`random.choice(['heads', 'tails'])` draw (line 359). -/
def coinflip_command (data : Account) (choice : String) (amount : Int)
    (coin_result : String) : Reply FlipOutcome :=
  let c := pyLower choice
  if c ∉ (["heads", "tails"] : List String) then
    { account := data, result := .error .InvalidChoice }
  else if amount ≤ 0 then
    { account := data, result := .error .InvalidAmount }
  else if data.cash < amount then
    { account := data, result := .error .InsufficientFunds }
  else if c = coin_result then
    { account := { data with cash := data.cash + amount },
      result := .ok { won := true, newBalance := data.cash + amount } }
  else
    { account := { data with cash := data.cash - amount },
      result := .ok { won := false, newBalance := data.cash - amount } }

/-- Handler `deposit_command` (lines 534-549): rejects `amount <= 0 or
amount > data['cash']` with one combined error message, otherwise moves
`amount` from cash to bank. -/
def deposit_command (data : Account) (amount : Int) : Reply Unit :=
  if amount ≤ 0 ∨ data.cash < amount then
    { account := data, result := .error .InvalidAmountOrInsufficientFunds }
  else
    { account := { data with cash := data.cash - amount, bank := data.bank + amount },
      result := .ok () }

/-- Handler `withdraw_command` (lines 551-567): rejects `amount <= 0 or
amount > data['bank']`, otherwise moves `amount` from bank to cash. -/
def withdraw_command (data : Account) (amount : Int) : Reply Unit :=
  if amount ≤ 0 ∨ data.bank < amount then
    { account := data, result := .error .InvalidAmountOrInsufficientFunds }
  else
    { account := { data with cash := data.cash + amount, bank := data.bank - amount },
      result := .ok () }

/-! ## Store level: the `user_data` dict and the registration gate -/

abbrev UserId := Nat

/-- The in-memory `user_data` mapping (line 21), viewed as a partial map. -/
abbrev Store := UserId → Option Account

/-- Writing `user_data[uid] = a`. -/
def updateStore (s : Store) (uid : UserId) (a : Account) : Store :=
  fun v => if v = uid then some a else s v

/-- Handler `register_command` (lines 81-104): fails with the already-registered error
when `user_id in user_data`, otherwise inserts the starter profile. -/
def register_command (s : Store) (uid : UserId) : Store × Except EconError Unit :=
  match s uid with
  | some _ => (s, .error .AlreadyExists)
  | none => (updateStore s uid starter_account, .ok ())

/-- Guard `check_registration` (lines 63-68) followed by running a handler on the
caller's record: unregistered callers get the NotRegistered error and nothing
runs; otherwise the handler's final account is stored back (the Python
handlers mutate `user_data[uid]` in place). -/
def withRegistration {α : Type} (s : Store) (uid : UserId)
    (handler : Account → Reply α) : Store × Except EconError α :=
  match s uid with
  | none => (s, .error .NotRegistered)
  | some data =>
    let r := handler data
    (updateStore s uid r.account, r.result)

/-- Store-level `balance`. -/
def balance_store (s : Store) (uid : UserId) : Store × Except EconError (Int × Int × Int) :=
  withRegistration s uid balance_command

/-- Store-level `work`. -/
def work_store (s : Store) (uid : UserId) (now : ℚ) (job_pay : Int) :
    Store × Except EconError Int :=
  withRegistration s uid (fun d => work_command d now job_pay)

/-- Store-level `daily`. -/
def daily_store (s : Store) (uid : UserId) (now : ℚ) (daily_reward : Int) :
    Store × Except EconError Int :=
  withRegistration s uid (fun d => daily_command d now daily_reward)

/-- Store-level `weekly`. -/
def weekly_store (s : Store) (uid : UserId) (now : ℚ) (weekly_reward : Int) :
    Store × Except EconError Int :=
  withRegistration s uid (fun d => weekly_command d now weekly_reward)

/-- Store-level `monthly`. -/
def monthly_store (s : Store) (uid : UserId) (now : ℚ) (monthly_reward : Int) :
    Store × Except EconError Int :=
  withRegistration s uid (fun d => monthly_command d now monthly_reward)

/-- Store-level `deposit`. -/
def deposit_store (s : Store) (uid : UserId) (amount : Int) :
    Store × Except EconError Unit :=
  withRegistration s uid (fun d => deposit_command d amount)

/-- Store-level `withdraw`. -/
def withdraw_store (s : Store) (uid : UserId) (amount : Int) :
    Store × Except EconError Unit :=
  withRegistration s uid (fun d => withdraw_command d amount)

/-- Store-level `coinflip`. -/
def coinflip_store (s : Store) (uid : UserId) (choice : String) (amount : Int)
    (coin_result : String) : Store × Except EconError FlipOutcome :=
  withRegistration s uid (fun d => coinflip_command d choice amount coin_result)

/-- The bank balance visible at a store slot, for frame statements. -/
def bankOf (o : Option Account) : Option Int := o.map Account.bank

/-! ## Helper lemmas -/

/-- Neither branch of `work_command` touches the bank balance. -/
theorem work_command_bank (d : Account) (now : ℚ) (r : Int) :
    (work_command d now r).account.bank = d.bank := by
  unfold work_command; split <;> rfl

/-- Neither branch of `daily_command` touches the bank balance. -/
theorem daily_command_bank (d : Account) (now : ℚ) (r : Int) :
    (daily_command d now r).account.bank = d.bank := by
  unfold daily_command; split <;> rfl

/-- Neither branch of `weekly_command` touches the bank balance. -/
theorem weekly_command_bank (d : Account) (now : ℚ) (r : Int) :
    (weekly_command d now r).account.bank = d.bank := by
  unfold weekly_command; split <;> rfl

/-- Neither branch of `monthly_command` touches the bank balance. -/
theorem monthly_command_bank (d : Account) (now : ℚ) (r : Int) :
    (monthly_command d now r).account.bank = d.bank := by
  unfold monthly_command; split <;> rfl

/-- No branch of `coinflip_command` touches the bank balance. -/
theorem coinflip_command_bank (d : Account) (choice : String) (amount : Int)
    (coin_result : String) :
    (coinflip_command d choice amount coin_result).account.bank = d.bank := by
  simp only [coinflip_command]
  split_ifs <;> rfl

/-- The slots of other users are untouched by a store update at `uid`. -/
theorem updateStore_other (s : Store) (uid : UserId) (a : Account)
    (v : UserId) (hv : v ≠ uid) : updateStore s uid a v = s v := by
  simp [updateStore, hv]

/-! ## Claims -/

/-- C1: for every account and every implemented operation (register, balance,
work, daily, weekly, monthly, deposit, withdraw, coinflip), if both balances
are non-negative before the operation (and the random payouts obey the
`random.randint` contracts of the source), both are non-negative after it:
no operation leaves cash or bank negative. -/
theorem all_operations_preserve_nonneg_balances
    (d : Account) (now : ℚ)
    (job_pay daily_reward weekly_reward monthly_reward amount stake : Int)
    (choice coin_result : String)
    (hc : 0 ≤ d.cash) (hb : 0 ≤ d.bank)
    (hw1 : 100 ≤ job_pay) (hd1 : 5000 ≤ daily_reward)
    (hwk1 : 30000 ≤ weekly_reward) (hm1 : 150000 ≤ monthly_reward) :
    (0 ≤ starter_account.cash ∧ 0 ≤ starter_account.bank)
    ∧ (0 ≤ (balance_command d).account.cash ∧ 0 ≤ (balance_command d).account.bank)
    ∧ (0 ≤ (work_command d now job_pay).account.cash
        ∧ 0 ≤ (work_command d now job_pay).account.bank)
    ∧ (0 ≤ (daily_command d now daily_reward).account.cash
        ∧ 0 ≤ (daily_command d now daily_reward).account.bank)
    ∧ (0 ≤ (weekly_command d now weekly_reward).account.cash
        ∧ 0 ≤ (weekly_command d now weekly_reward).account.bank)
    ∧ (0 ≤ (monthly_command d now monthly_reward).account.cash
        ∧ 0 ≤ (monthly_command d now monthly_reward).account.bank)
    ∧ (0 ≤ (deposit_command d amount).account.cash
        ∧ 0 ≤ (deposit_command d amount).account.bank)
    ∧ (0 ≤ (withdraw_command d amount).account.cash
        ∧ 0 ≤ (withdraw_command d amount).account.bank)
    ∧ (0 ≤ (coinflip_command d choice stake coin_result).account.cash
        ∧ 0 ≤ (coinflip_command d choice stake coin_result).account.bank) := by
  refine ⟨⟨by norm_num [starter_account], by norm_num [starter_account]⟩,
    ⟨hc, hb⟩, ?_, ?_, ?_, ?_, ?_, ?_, ?_⟩
  · constructor <;> (simp only [work_command]; split_ifs <;> simp <;> omega)
  · constructor <;> (simp only [daily_command]; split_ifs <;> simp <;> omega)
  · constructor <;> (simp only [weekly_command]; split_ifs <;> simp <;> omega)
  · constructor <;> (simp only [monthly_command]; split_ifs <;> simp <;> omega)
  · constructor <;> (simp only [deposit_command]; split_ifs <;> simp <;> omega)
  · constructor <;> (simp only [withdraw_command]; split_ifs <;> simp <;> omega)
  · constructor <;> (simp only [coinflip_command]; split_ifs <;> simp <;> omega)

/-- Witness for C1 at a concrete account, time, payouts and stake. -/
theorem all_operations_preserve_nonneg_balances_witness :
    (0 ≤ starter_account.cash ∧ 0 ≤ starter_account.bank
      ∧ 100 ≤ (250 : Int) + 0 ∧ True)
    ∧ ((0 ≤ starter_account.cash ∧ 0 ≤ starter_account.bank)
    ∧ (0 ≤ (balance_command starter_account).account.cash
        ∧ 0 ≤ (balance_command starter_account).account.bank)
    ∧ (0 ≤ (work_command starter_account 10000000 100).account.cash
        ∧ 0 ≤ (work_command starter_account 10000000 100).account.bank)
    ∧ (0 ≤ (daily_command starter_account 10000000 5000).account.cash
        ∧ 0 ≤ (daily_command starter_account 10000000 5000).account.bank)
    ∧ (0 ≤ (weekly_command starter_account 10000000 30000).account.cash
        ∧ 0 ≤ (weekly_command starter_account 10000000 30000).account.bank)
    ∧ (0 ≤ (monthly_command starter_account 10000000 150000).account.cash
        ∧ 0 ≤ (monthly_command starter_account 10000000 150000).account.bank)
    ∧ (0 ≤ (deposit_command starter_account 200).account.cash
        ∧ 0 ≤ (deposit_command starter_account 200).account.bank)
    ∧ (0 ≤ (withdraw_command starter_account 200).account.cash
        ∧ 0 ≤ (withdraw_command starter_account 200).account.bank)
    ∧ (0 ≤ (coinflip_command starter_account "heads" 200 "tails").account.cash
        ∧ 0 ≤ (coinflip_command starter_account "heads" 200 "tails").account.bank)) :=
  ⟨⟨by norm_num [starter_account], by norm_num [starter_account], by norm_num, trivial⟩,
    all_operations_preserve_nonneg_balances starter_account 10000000
      100 5000 30000 150000 200 200 "heads" "tails"
      (by norm_num [starter_account]) (by norm_num [starter_account])
      (by norm_num) (by norm_num) (by norm_num) (by norm_num)⟩

/-- C2: the cooldown check is Ready exactly when `now` has reached
`lastUsed + interval` (inclusive boundary); one second before the boundary it
is Blocked with 1 second remaining; and each timed handler succeeds exactly
when the check on its stored timestamp is Ready. -/
theorem cooldown_ready_iff_and_boundary
    (lastUsed interval now t0 : ℚ) (d : Account) (r : Int) :
    (cooldownCheck lastUsed interval now = CooldownResult.Ready
      ↔ lastUsed + interval ≤ now)
    ∧ cooldownCheck t0 interval (t0 + interval - 1) = CooldownResult.Blocked 1
    ∧ cooldownCheck t0 interval (t0 + interval) = CooldownResult.Ready
    ∧ ((work_command d now r).result.isOk = true
        ↔ cooldownCheck d.last_work WORK_COOLDOWN_SECONDS now = CooldownResult.Ready)
    ∧ ((daily_command d now r).result.isOk = true
        ↔ cooldownCheck d.last_daily DAILY_COOLDOWN_SECONDS now = CooldownResult.Ready)
    ∧ ((weekly_command d now r).result.isOk = true
        ↔ cooldownCheck d.last_weekly WEEKLY_COOLDOWN_SECONDS now = CooldownResult.Ready)
    ∧ ((monthly_command d now r).result.isOk = true
        ↔ cooldownCheck d.last_monthly MONTHLY_COOLDOWN_SECONDS now = CooldownResult.Ready) := by
  have key : ∀ l i n : ℚ,
      (cooldownCheck l i n = CooldownResult.Ready ↔ l + i ≤ n) := by
    intro l i n
    unfold cooldownCheck
    split_ifs with h
    · constructor
      · intro hx
        exact absurd hx (by simp)
      · intro hx
        exact absurd hx (by linarith)
    · constructor
      · intro _
        exact le_of_not_lt h
      · intro _
        rfl
  refine ⟨key _ _ _, ?_, ?_, ?_, ?_, ?_, ?_⟩
  · unfold cooldownCheck
    rw [if_pos (by linarith)]
    have harg : t0 + interval - (t0 + interval - 1) = 1 := by ring
    rw [harg]
    unfold pyInt
    rw [if_neg (by norm_num)]
    norm_num
  · exact (key _ _ _).mpr (by linarith)
  · unfold work_command
    split_ifs with h
    · have hnot : cooldownCheck d.last_work WORK_COOLDOWN_SECONDS now
          ≠ CooldownResult.Ready := by
        intro hx
        rw [key] at hx
        linarith
      simp [Except.isOk, Except.toBool, hnot]
    · have hyes : cooldownCheck d.last_work WORK_COOLDOWN_SECONDS now
          = CooldownResult.Ready := by
        exact (key _ _ _).mpr (by linarith)
      simp [Except.isOk, Except.toBool, hyes]
  · unfold daily_command
    split_ifs with h
    · have hnot : cooldownCheck d.last_daily DAILY_COOLDOWN_SECONDS now
          ≠ CooldownResult.Ready := by
        intro hx
        rw [key] at hx
        linarith
      simp [Except.isOk, Except.toBool, hnot]
    · have hyes : cooldownCheck d.last_daily DAILY_COOLDOWN_SECONDS now
          = CooldownResult.Ready := by
        exact (key _ _ _).mpr (by linarith)
      simp [Except.isOk, Except.toBool, hyes]
  · unfold weekly_command
    split_ifs with h
    · have hnot : cooldownCheck d.last_weekly WEEKLY_COOLDOWN_SECONDS now
          ≠ CooldownResult.Ready := by
        intro hx
        rw [key] at hx
        linarith
      simp [Except.isOk, Except.toBool, hnot]
    · have hyes : cooldownCheck d.last_weekly WEEKLY_COOLDOWN_SECONDS now
          = CooldownResult.Ready := by
        exact (key _ _ _).mpr (by linarith)
      simp [Except.isOk, Except.toBool, hyes]
  · unfold monthly_command
    split_ifs with h
    · have hnot : cooldownCheck d.last_monthly MONTHLY_COOLDOWN_SECONDS now
          ≠ CooldownResult.Ready := by
        intro hx
        rw [key] at hx
        linarith
      simp [Except.isOk, Except.toBool, hnot]
    · have hyes : cooldownCheck d.last_monthly MONTHLY_COOLDOWN_SECONDS now
          = CooldownResult.Ready := by
        exact (key _ _ _).mpr (by linarith)
      simp [Except.isOk, Except.toBool, hyes]

/-- C3 counterexample: at `lastUsed = 0`, interval 60 (work) and the
non-whole-second instant `now = 59.5`, the remaining duration is `0.5` s, so
the ceiling the claim prescribes is 1 — but the code computes
`int(0.5) = 0` and reports 0 remaining seconds, both in the generic check and
in the actual `work` handler run on a fresh account. -/
theorem cooldown_remaining_not_ceil :
    cooldownCheck 0 WORK_COOLDOWN_SECONDS (119/2) = CooldownResult.Blocked 0
    ∧ (work_command starter_account (119/2) 100).result
        = Except.error (EconError.CooldownActive 0)
    ∧ ⌈(0 : ℚ) + WORK_COOLDOWN_SECONDS - 119/2⌉ = 1 := by
  have harg : (0 : ℚ) + WORK_COOLDOWN_SECONDS - 119/2 = 1/2 := by
    norm_num [WORK_COOLDOWN_SECONDS]
  have hpy : pyInt ((0 : ℚ) + WORK_COOLDOWN_SECONDS - 119/2) = 0 := by
    rw [harg]
    unfold pyInt
    rw [if_neg (by norm_num)]
    rw [Int.floor_eq_zero_iff]
    constructor <;> norm_num
  refine ⟨?_, ?_, ?_⟩
  · unfold cooldownCheck
    rw [if_pos (by norm_num [WORK_COOLDOWN_SECONDS])]
    rw [hpy]
  · unfold work_command
    rw [if_pos (by norm_num [starter_account, WORK_COOLDOWN_SECONDS])]
    have : starter_account.last_work = (0 : ℚ) := rfl
    rw [this, hpy]
  · rw [harg, Int.ceil_eq_iff]
    constructor <;> norm_num

/-- C3 amended: for every blocked check (`now < lastUsed + interval`), the
reported remaining time is the remaining duration truncated DOWN to a whole
second, `floor(lastUsed + interval - now)` (Python `int()` on a positive
float); it agrees with the ceiling only at whole-second remainders. -/
theorem cooldown_remaining_is_floor (lastUsed interval now : ℚ)
    (h : now < lastUsed + interval) :
    cooldownCheck lastUsed interval now
      = CooldownResult.Blocked ⌊lastUsed + interval - now⌋ := by
  unfold cooldownCheck
  rw [if_pos h]
  unfold pyInt
  rw [if_neg (by linarith)]

/-- Witness for the amended C3 at `lastUsed = 0`, interval 60, `now = 59.5`:
the blocked check reports `floor(0.5) = 0` seconds remaining. -/
theorem cooldown_remaining_is_floor_witness :
    ((119 : ℚ)/2 < 0 + 60)
    ∧ cooldownCheck 0 60 (119/2) = CooldownResult.Blocked ⌊(0 : ℚ) + 60 - 119/2⌋ :=
  ⟨by norm_num, cooldown_remaining_is_floor 0 60 (119/2) (by norm_num)⟩

/-- C4: with its cooldown satisfied, each timed handler credits cash by the
`random.randint` draw of its configured inclusive range — work [100, 600],
daily [5000, 10000], weekly [30000, 50000], monthly [150000, 300000] — so the
resulting cash is the prior cash plus an amount inside that range. -/
theorem timed_rewards_credit_within_range
    (d : Account) (now : ℚ)
    (job_pay daily_reward weekly_reward monthly_reward : Int)
    (hw : ¬ now < d.last_work + WORK_COOLDOWN_SECONDS)
    (hd : ¬ now < d.last_daily + DAILY_COOLDOWN_SECONDS)
    (hwk : ¬ now < d.last_weekly + WEEKLY_COOLDOWN_SECONDS)
    (hm : ¬ now < d.last_monthly + MONTHLY_COOLDOWN_SECONDS)
    (h1 : 100 ≤ job_pay) (h2 : job_pay ≤ 600)
    (h3 : 5000 ≤ daily_reward) (h4 : daily_reward ≤ 10000)
    (h5 : 30000 ≤ weekly_reward) (h6 : weekly_reward ≤ 50000)
    (h7 : 150000 ≤ monthly_reward) (h8 : monthly_reward ≤ 300000) :
    ((work_command d now job_pay).account.cash = d.cash + job_pay
      ∧ d.cash + 100 ≤ (work_command d now job_pay).account.cash
      ∧ (work_command d now job_pay).account.cash ≤ d.cash + 600)
    ∧ ((daily_command d now daily_reward).account.cash = d.cash + daily_reward
      ∧ d.cash + 5000 ≤ (daily_command d now daily_reward).account.cash
      ∧ (daily_command d now daily_reward).account.cash ≤ d.cash + 10000)
    ∧ ((weekly_command d now weekly_reward).account.cash = d.cash + weekly_reward
      ∧ d.cash + 30000 ≤ (weekly_command d now weekly_reward).account.cash
      ∧ (weekly_command d now weekly_reward).account.cash ≤ d.cash + 50000)
    ∧ ((monthly_command d now monthly_reward).account.cash = d.cash + monthly_reward
      ∧ d.cash + 150000 ≤ (monthly_command d now monthly_reward).account.cash
      ∧ (monthly_command d now monthly_reward).account.cash ≤ d.cash + 300000) := by
  unfold work_command daily_command weekly_command monthly_command
  rw [if_neg hw, if_neg hd, if_neg hwk, if_neg hm]
  refine ⟨⟨rfl, ?_, ?_⟩, ⟨rfl, ?_, ?_⟩, ⟨rfl, ?_, ?_⟩, ⟨rfl, ?_, ?_⟩⟩ <;> simp <;> omega

/-- Witness for C4 on a fresh account at a large time with concrete draws. -/
theorem timed_rewards_credit_within_range_witness :
    (¬ (10000000 : ℚ) < starter_account.last_work + WORK_COOLDOWN_SECONDS)
    ∧ (((work_command starter_account 10000000 345).account.cash
          = starter_account.cash + 345
        ∧ starter_account.cash + 100 ≤ (work_command starter_account 10000000 345).account.cash
        ∧ (work_command starter_account 10000000 345).account.cash ≤ starter_account.cash + 600)
      ∧ ((daily_command starter_account 10000000 7777).account.cash
          = starter_account.cash + 7777
        ∧ starter_account.cash + 5000 ≤ (daily_command starter_account 10000000 7777).account.cash
        ∧ (daily_command starter_account 10000000 7777).account.cash ≤ starter_account.cash + 10000)
      ∧ ((weekly_command starter_account 10000000 42000).account.cash
          = starter_account.cash + 42000
        ∧ starter_account.cash + 30000 ≤ (weekly_command starter_account 10000000 42000).account.cash
        ∧ (weekly_command starter_account 10000000 42000).account.cash ≤ starter_account.cash + 50000)
      ∧ ((monthly_command starter_account 10000000 200000).account.cash
          = starter_account.cash + 200000
        ∧ starter_account.cash + 150000 ≤ (monthly_command starter_account 10000000 200000).account.cash
        ∧ (monthly_command starter_account 10000000 200000).account.cash ≤ starter_account.cash + 300000)) :=
  ⟨by norm_num [starter_account, WORK_COOLDOWN_SECONDS],
    timed_rewards_credit_within_range starter_account 10000000 345 7777 42000 200000
      (by norm_num [starter_account, WORK_COOLDOWN_SECONDS])
      (by norm_num [starter_account, DAILY_COOLDOWN_SECONDS])
      (by norm_num [starter_account, WEEKLY_COOLDOWN_SECONDS])
      (by norm_num [starter_account, MONTHLY_COOLDOWN_SECONDS])
      (by norm_num) (by norm_num) (by norm_num) (by norm_num)
      (by norm_num) (by norm_num) (by norm_num) (by norm_num)⟩

/-- C5: the coinflip handler checks the (lowercased) choice's membership in
{heads, tails} before any stake validation: for an invalid choice the result
is InvalidChoice — whatever the stake, including non-positive stakes and
stakes above cash — and the account is unchanged. -/
theorem coinflip_invalid_choice_precedence
    (d : Account) (choice coin_result : String) (amount : Int)
    (h : pyLower choice ∉ (["heads", "tails"] : List String)) :
    (coinflip_command d choice amount coin_result).result
        = Except.error EconError.InvalidChoice
    ∧ (coinflip_command d choice amount coin_result).account = d := by
  unfold coinflip_command
  rw [if_pos h]
  exact ⟨rfl, rfl⟩

/-- Witness for C5: the invalid choice "banana" on a fresh account, once with
a non-positive stake and once with a stake exceeding cash. -/
theorem coinflip_invalid_choice_precedence_witness :
    (pyLower "banana" ∉ (["heads", "tails"] : List String))
    ∧ ((coinflip_command starter_account "banana" (-5) "heads").result
          = Except.error EconError.InvalidChoice
      ∧ (coinflip_command starter_account "banana" (-5) "heads").account
          = starter_account)
    ∧ ((coinflip_command starter_account "banana" 1000000 "heads").result
          = Except.error EconError.InvalidChoice
      ∧ (coinflip_command starter_account "banana" 1000000 "heads").account
          = starter_account) :=
  ⟨by decide,
    coinflip_invalid_choice_precedence starter_account "banana" "heads" (-5) (by decide),
    coinflip_invalid_choice_precedence starter_account "banana" "heads" 1000000 (by decide)⟩

/-- C6: with a valid choice and a stake `0 < stake <= cash`, the wager is
resolved by the coin draw: a draw equal to the (lowercased) choice credits
exactly the stake with `won = true`, a different draw debits exactly the
stake with `won = false`, and in both cases the reported new balance equals
the account's resulting cash. -/
theorem coinflip_resolution_correct
    (d : Account) (choice coin_result : String) (amount : Int)
    (hchoice : pyLower choice ∈ (["heads", "tails"] : List String))
    (hpos : 0 < amount) (hle : amount ≤ d.cash) :
    (pyLower choice = coin_result →
      (coinflip_command d choice amount coin_result).account.cash = d.cash + amount
      ∧ (coinflip_command d choice amount coin_result).result
          = Except.ok { won := true, newBalance := d.cash + amount })
    ∧ (pyLower choice ≠ coin_result →
      (coinflip_command d choice amount coin_result).account.cash = d.cash - amount
      ∧ (coinflip_command d choice amount coin_result).result
          = Except.ok { won := false, newBalance := d.cash - amount })
    ∧ (∀ o : FlipOutcome,
        (coinflip_command d choice amount coin_result).result = Except.ok o →
        o.newBalance = (coinflip_command d choice amount coin_result).account.cash) := by
  unfold coinflip_command
  rw [if_neg (by simp only [not_not]; exact hchoice)]
  rw [if_neg (by omega), if_neg (by omega)]
  by_cases hc : pyLower choice = coin_result
  · rw [if_pos hc]
    refine ⟨fun _ => ⟨rfl, rfl⟩, fun hne => absurd hc hne, ?_⟩
    intro o ho
    cases ho
    rfl
  · rw [if_neg hc]
    refine ⟨fun heq => absurd heq hc, fun _ => ⟨rfl, rfl⟩, ?_⟩
    intro o ho
    cases ho
    rfl

/-- Witness for C6: a fresh account stakes 200 on "heads" and the coin lands
"tails". -/
theorem coinflip_resolution_correct_witness :
    (pyLower "heads" ∈ (["heads", "tails"] : List String))
    ∧ (0 : Int) < 200 ∧ (200 : Int) ≤ starter_account.cash
    ∧ ((pyLower "heads" = "tails" →
        (coinflip_command starter_account "heads" 200 "tails").account.cash
            = starter_account.cash + 200
        ∧ (coinflip_command starter_account "heads" 200 "tails").result
            = Except.ok { won := true, newBalance := starter_account.cash + 200 })
      ∧ (pyLower "heads" ≠ "tails" →
        (coinflip_command starter_account "heads" 200 "tails").account.cash
            = starter_account.cash - 200
        ∧ (coinflip_command starter_account "heads" 200 "tails").result
            = Except.ok { won := false, newBalance := starter_account.cash - 200 })
      ∧ (∀ o : FlipOutcome,
          (coinflip_command starter_account "heads" 200 "tails").result = Except.ok o →
          o.newBalance
            = (coinflip_command starter_account "heads" 200 "tails").account.cash)) :=
  ⟨by decide, by norm_num, by norm_num [starter_account],
    coinflip_resolution_correct starter_account "heads" "tails" 200
      (by decide) (by norm_num) (by norm_num [starter_account])⟩

/-- C7: deposit succeeds exactly when `0 < amount <= cash` and then moves
exactly `amount` from cash to bank; withdraw succeeds exactly when
`0 < amount <= bank` and moves exactly `amount` from bank to cash; success
preserves `cash + bank`, and failure leaves the account unchanged. -/
theorem deposit_withdraw_move_exactly (d : Account) (amount : Int) :
    ((deposit_command d amount).result.isOk = true
        ↔ 0 < amount ∧ amount ≤ d.cash)
    ∧ ((deposit_command d amount).result.isOk = true →
        (deposit_command d amount).account.cash = d.cash - amount
        ∧ (deposit_command d amount).account.bank = d.bank + amount
        ∧ (deposit_command d amount).account.cash + (deposit_command d amount).account.bank
            = d.cash + d.bank)
    ∧ ((deposit_command d amount).result.isOk = false →
        (deposit_command d amount).account = d)
    ∧ ((withdraw_command d amount).result.isOk = true
        ↔ 0 < amount ∧ amount ≤ d.bank)
    ∧ ((withdraw_command d amount).result.isOk = true →
        (withdraw_command d amount).account.cash = d.cash + amount
        ∧ (withdraw_command d amount).account.bank = d.bank - amount
        ∧ (withdraw_command d amount).account.cash + (withdraw_command d amount).account.bank
            = d.cash + d.bank)
    ∧ ((withdraw_command d amount).result.isOk = false →
        (withdraw_command d amount).account = d) := by
  unfold deposit_command withdraw_command
  split_ifs with h1 h2 <;> simp [Except.isOk, Except.toBool] <;> omega

/-- Witness for C7 with a fresh account and amount 200 (deposit succeeds,
withdraw fails on the empty bank). -/
theorem deposit_withdraw_move_exactly_witness :
    ((deposit_command starter_account 200).result.isOk = true
        ↔ 0 < (200 : Int) ∧ (200 : Int) ≤ starter_account.cash)
    ∧ ((deposit_command starter_account 200).result.isOk = true →
        (deposit_command starter_account 200).account.cash = starter_account.cash - 200
        ∧ (deposit_command starter_account 200).account.bank = starter_account.bank + 200
        ∧ (deposit_command starter_account 200).account.cash
            + (deposit_command starter_account 200).account.bank
            = starter_account.cash + starter_account.bank)
    ∧ ((deposit_command starter_account 200).result.isOk = false →
        (deposit_command starter_account 200).account = starter_account)
    ∧ ((withdraw_command starter_account 200).result.isOk = true
        ↔ 0 < (200 : Int) ∧ (200 : Int) ≤ starter_account.bank)
    ∧ ((withdraw_command starter_account 200).result.isOk = true →
        (withdraw_command starter_account 200).account.cash = starter_account.cash + 200
        ∧ (withdraw_command starter_account 200).account.bank = starter_account.bank - 200
        ∧ (withdraw_command starter_account 200).account.cash
            + (withdraw_command starter_account 200).account.bank
            = starter_account.cash + starter_account.bank)
    ∧ ((withdraw_command starter_account 200).result.isOk = false →
        (withdraw_command starter_account 200).account = starter_account) :=
  deposit_withdraw_move_exactly starter_account 200

/-- C8: registering an unregistered identity creates exactly one account —
the caller's slot now holds the starter profile (cash 500, bank 0, every
cooldown timestamp 0, i.e. never used) and every other slot is untouched;
registering twice fails with AlreadyExists and changes nothing; and every
other implemented action for an unregistered identity fails with
NotRegistered and changes nothing. -/
theorem registration_semantics
    (s : Store) (uid : UserId) (now : ℚ) (r amount : Int)
    (choice coin_result : String) :
    (s uid = none →
      (register_command s uid).2 = Except.ok ()
      ∧ (register_command s uid).1 uid = some starter_account
      ∧ (∀ v, v ≠ uid → (register_command s uid).1 v = s v))
    ∧ (s uid ≠ none →
      (register_command s uid).2 = Except.error EconError.AlreadyExists
      ∧ ∀ v, (register_command s uid).1 v = s v)
    ∧ (starter_account.cash = 500 ∧ starter_account.bank = 0
      ∧ starter_account.last_work = 0 ∧ starter_account.last_daily = 0
      ∧ starter_account.last_weekly = 0 ∧ starter_account.last_monthly = 0)
    ∧ (s uid = none →
      ((balance_store s uid).2 = Except.error EconError.NotRegistered
        ∧ (balance_store s uid).1 = s)
      ∧ ((work_store s uid now r).2 = Except.error EconError.NotRegistered
        ∧ (work_store s uid now r).1 = s)
      ∧ ((daily_store s uid now r).2 = Except.error EconError.NotRegistered
        ∧ (daily_store s uid now r).1 = s)
      ∧ ((weekly_store s uid now r).2 = Except.error EconError.NotRegistered
        ∧ (weekly_store s uid now r).1 = s)
      ∧ ((monthly_store s uid now r).2 = Except.error EconError.NotRegistered
        ∧ (monthly_store s uid now r).1 = s)
      ∧ ((deposit_store s uid amount).2 = Except.error EconError.NotRegistered
        ∧ (deposit_store s uid amount).1 = s)
      ∧ ((withdraw_store s uid amount).2 = Except.error EconError.NotRegistered
        ∧ (withdraw_store s uid amount).1 = s)
      ∧ ((coinflip_store s uid choice amount coin_result).2
            = Except.error EconError.NotRegistered
        ∧ (coinflip_store s uid choice amount coin_result).1 = s)) := by
  refine ⟨?_, ?_, ⟨rfl, rfl, rfl, rfl, rfl, rfl⟩, ?_⟩
  · intro hnone
    unfold register_command
    rw [hnone]
    exact ⟨rfl, by simp [updateStore], fun v hv => by simp [updateStore, hv]⟩
  · intro hsome
    unfold register_command
    cases hx : s uid with
    | none => exact absurd hx hsome
    | some a => exact ⟨rfl, fun v => rfl⟩
  · intro hnone
    unfold balance_store work_store daily_store weekly_store monthly_store
      deposit_store withdraw_store coinflip_store withRegistration
    rw [hnone]
    exact ⟨⟨rfl, rfl⟩, ⟨rfl, rfl⟩, ⟨rfl, rfl⟩, ⟨rfl, rfl⟩, ⟨rfl, rfl⟩,
      ⟨rfl, rfl⟩, ⟨rfl, rfl⟩, ⟨rfl, rfl⟩⟩

/-- Witness for C8 on the empty store (no one registered) at slot 42. -/
theorem registration_semantics_witness :
    (((fun _ => none : Store) 42 = none →
      (register_command (fun _ => none) 42).2 = Except.ok ()
      ∧ (register_command (fun _ => none) 42).1 42 = some starter_account
      ∧ (∀ v, v ≠ 42 → (register_command (fun _ => none) 42).1 v
          = (fun _ => none : Store) v))
    ∧ ((fun _ => none : Store) 42 ≠ none →
      (register_command (fun _ => none) 42).2 = Except.error EconError.AlreadyExists
      ∧ ∀ v, (register_command (fun _ => none) 42).1 v = (fun _ => none : Store) v)
    ∧ (starter_account.cash = 500 ∧ starter_account.bank = 0
      ∧ starter_account.last_work = 0 ∧ starter_account.last_daily = 0
      ∧ starter_account.last_weekly = 0 ∧ starter_account.last_monthly = 0)
    ∧ ((fun _ => none : Store) 42 = none →
      ((balance_store (fun _ => none) 42).2 = Except.error EconError.NotRegistered
        ∧ (balance_store (fun _ => none) 42).1 = (fun _ => none : Store))
      ∧ ((work_store (fun _ => none) 42 0 100).2 = Except.error EconError.NotRegistered
        ∧ (work_store (fun _ => none) 42 0 100).1 = (fun _ => none : Store))
      ∧ ((daily_store (fun _ => none) 42 0 100).2 = Except.error EconError.NotRegistered
        ∧ (daily_store (fun _ => none) 42 0 100).1 = (fun _ => none : Store))
      ∧ ((weekly_store (fun _ => none) 42 0 100).2 = Except.error EconError.NotRegistered
        ∧ (weekly_store (fun _ => none) 42 0 100).1 = (fun _ => none : Store))
      ∧ ((monthly_store (fun _ => none) 42 0 100).2 = Except.error EconError.NotRegistered
        ∧ (monthly_store (fun _ => none) 42 0 100).1 = (fun _ => none : Store))
      ∧ ((deposit_store (fun _ => none) 42 100).2 = Except.error EconError.NotRegistered
        ∧ (deposit_store (fun _ => none) 42 100).1 = (fun _ => none : Store))
      ∧ ((withdraw_store (fun _ => none) 42 100).2 = Except.error EconError.NotRegistered
        ∧ (withdraw_store (fun _ => none) 42 100).1 = (fun _ => none : Store))
      ∧ ((coinflip_store (fun _ => none) 42 "heads" 100 "tails").2
            = Except.error EconError.NotRegistered
        ∧ (coinflip_store (fun _ => none) 42 "heads" 100 "tails").1
            = (fun _ => none : Store)))) :=
  registration_semantics (fun _ => none) 42 0 100 100 "heads" "tails"

/-- A registered-only action whose handler never touches the bank leaves the
caller's bank balance and all other slots of the store unchanged. -/
theorem withRegistration_bank_frame {α : Type} (s : Store) (uid : UserId)
    (handler : Account → Reply α)
    (hbank : ∀ d, (handler d).account.bank = d.bank) :
    bankOf ((withRegistration s uid handler).1 uid) = bankOf (s uid)
    ∧ ∀ v, v ≠ uid → (withRegistration s uid handler).1 v = s v := by
  unfold withRegistration
  cases hx : s uid with
  | none =>
    refine ⟨?_, fun v hv => rfl⟩
    show bankOf (s uid) = bankOf none
    rw [hx]
  | some d =>
    constructor
    · show bankOf (updateStore s uid (handler d).account uid) = bankOf (some d)
      simp [updateStore, bankOf, hbank d]
    · intro v hv
      simp [updateStore, hv]

/-- C9: the coinflip wager and the four timed reward actions never change the
caller's bank balance, and never change any other account's slot (cash,
bank or cooldowns); funds move between cash and bank only through the
deposit and withdraw handlers. -/
theorem rewards_and_wager_preserve_bank
    (s : Store) (uid : UserId) (now : ℚ) (r amount : Int)
    (choice coin_result : String) :
    (bankOf ((work_store s uid now r).1 uid) = bankOf (s uid)
      ∧ ∀ v, v ≠ uid → (work_store s uid now r).1 v = s v)
    ∧ (bankOf ((daily_store s uid now r).1 uid) = bankOf (s uid)
      ∧ ∀ v, v ≠ uid → (daily_store s uid now r).1 v = s v)
    ∧ (bankOf ((weekly_store s uid now r).1 uid) = bankOf (s uid)
      ∧ ∀ v, v ≠ uid → (weekly_store s uid now r).1 v = s v)
    ∧ (bankOf ((monthly_store s uid now r).1 uid) = bankOf (s uid)
      ∧ ∀ v, v ≠ uid → (monthly_store s uid now r).1 v = s v)
    ∧ (bankOf ((coinflip_store s uid choice amount coin_result).1 uid) = bankOf (s uid)
      ∧ ∀ v, v ≠ uid → (coinflip_store s uid choice amount coin_result).1 v = s v) := by
  refine ⟨?_, ?_, ?_, ?_, ?_⟩
  · exact withRegistration_bank_frame s uid _ (fun d => work_command_bank d now r)
  · exact withRegistration_bank_frame s uid _ (fun d => daily_command_bank d now r)
  · exact withRegistration_bank_frame s uid _ (fun d => weekly_command_bank d now r)
  · exact withRegistration_bank_frame s uid _ (fun d => monthly_command_bank d now r)
  · exact withRegistration_bank_frame s uid _
      (fun d => coinflip_command_bank d choice amount coin_result)

/-- Witness for C9 on a one-account store at slot 7. -/
theorem rewards_and_wager_preserve_bank_witness :
    (bankOf ((work_store (updateStore (fun _ => none) 7 starter_account) 7 0 100).1 7)
        = bankOf (updateStore (fun _ => none) 7 starter_account 7)
      ∧ ∀ v, v ≠ 7 →
        (work_store (updateStore (fun _ => none) 7 starter_account) 7 0 100).1 v
          = updateStore (fun _ => none) 7 starter_account v)
    ∧ (bankOf ((daily_store (updateStore (fun _ => none) 7 starter_account) 7 0 100).1 7)
        = bankOf (updateStore (fun _ => none) 7 starter_account 7)
      ∧ ∀ v, v ≠ 7 →
        (daily_store (updateStore (fun _ => none) 7 starter_account) 7 0 100).1 v
          = updateStore (fun _ => none) 7 starter_account v)
    ∧ (bankOf ((weekly_store (updateStore (fun _ => none) 7 starter_account) 7 0 100).1 7)
        = bankOf (updateStore (fun _ => none) 7 starter_account 7)
      ∧ ∀ v, v ≠ 7 →
        (weekly_store (updateStore (fun _ => none) 7 starter_account) 7 0 100).1 v
          = updateStore (fun _ => none) 7 starter_account v)
    ∧ (bankOf ((monthly_store (updateStore (fun _ => none) 7 starter_account) 7 0 100).1 7)
        = bankOf (updateStore (fun _ => none) 7 starter_account 7)
      ∧ ∀ v, v ≠ 7 →
        (monthly_store (updateStore (fun _ => none) 7 starter_account) 7 0 100).1 v
          = updateStore (fun _ => none) 7 starter_account v)
    ∧ (bankOf ((coinflip_store (updateStore (fun _ => none) 7 starter_account)
            7 "heads" 100 "tails").1 7)
        = bankOf (updateStore (fun _ => none) 7 starter_account 7)
      ∧ ∀ v, v ≠ 7 →
        (coinflip_store (updateStore (fun _ => none) 7 starter_account)
            7 "heads" 100 "tails").1 v
          = updateStore (fun _ => none) 7 starter_account v) :=
  rewards_and_wager_preserve_bank
    (updateStore (fun _ => none) 7 starter_account) 7 0 100 100 "heads" "tails"
